import Mathlib

/-!
# Verification of the autonomy-explorer scoring pipeline

A shallow embedding in Lean 4 of the deterministic core of the
autonomy-explorer data pipeline (the scoring engine of
`05_compute_scores.py`, the PLZ/settlement upward aggregation of
`02b_fetch_travel_times_plz.py` / `02c_fetch_travel_times_settlements.py`,
the price merge of `04_merge_prices.py`, and the tax-total computation of
`04_fetch_taxes.py`), together with theorems settling the testable
properties stated in the design document.

Modelling conventions:
* JSON numbers become `ℚ`; nullable values become `Option ℚ`.
* Python dicts keyed by strings become association lists
  `List (String × _)` or total lookup functions `String → Option _`,
  matching how the source accesses them (`d.get(k)` / `d.get(k, {})`).
* Python `round(x, n)` (round-half-to-even on the scaled value) is
  modelled exactly by `pyRound`.
* Python truthiness of an optional number (`if v:`) is `v` being
  present and nonzero; truthiness of a dict is modelled by `Option`
  presence where the pipeline only ever stores non-empty dicts.
-/

/-- Round-half-to-even on a rational: the integer nearest to `x`,
ties resolved to the even integer.  This is what Python's builtin
`round` does on the scaled value. -/
def roundHalfEven (x : ℚ) : ℤ :=
  let f := ⌊x⌋
  let r := x - f
  if r < 1/2 then f
  else if r > 1/2 then f + 1
  else if f % 2 = 0 then f else f + 1

/-- Python's `round(x, n)`: scale by `10^n`, round half to even, scale
back. -/
def pyRound (x : ℚ) (n : ℕ) : ℚ :=
  (roundHalfEven (x * 10 ^ n) : ℚ) / 10 ^ n

/-- The comfort-factor configuration (`COMFORT` in `config.py`); only the
two factors the scoring engine reads are modelled. -/
structure Comfort where
  av_factor : ℚ
  oev_sitting_factor : ℚ
deriving Repr, DecidableEq

/-- The default comfort configuration from `config.py`. -/
def COMFORT : Comfort := { av_factor := 7/10, oev_sitting_factor := 7/10 }

/-- The keys of the `CITIES` table in `config.py` (the reference cities);
the scoring engine iterates over these keys only. -/
def CITY_IDS : List String :=
  ["zurich", "bern", "basel", "luzern", "geneve",
   "lausanne", "stgallen", "lugano", "winterthur", "biel"]

/-- `compute_comfort_time` from `05_compute_scores.py`: apply comfort
weighting to a raw travel time in seconds, yielding minutes. -/
def compute_comfort_time (raw_seconds : Option ℚ) (mode : String)
    (comfort : Comfort) : Option ℚ :=
  match raw_seconds with
  | none => none
  | some s =>
    let minutes := s / 60
    if mode = "driving_av" then some (minutes * comfort.av_factor)
    else if mode = "driving_manual" then some minutes
    else if mode = "public_transport" then some (minutes * comfort.oev_sitting_factor)
    else some minutes

/-- The per-city body of `compute_accessibility_gain`: null if either
duration is null, else `min(manual drive comfort, PT comfort) − AV
comfort`. -/
def gainForCity (driving_times pt_times : String → Option ℚ)
    (comfort : Comfort) (city : String) : Option ℚ :=
  match driving_times city, pt_times city with
  | some d, some p =>
      some (min (d / 60) (p / 60 * comfort.oev_sitting_factor)
            - d / 60 * comfort.av_factor)
  | _, _ => none

/-- `compute_accessibility_gain` from `05_compute_scores.py`: the
`gains` dict, keyed by the reference cities in `CITIES` order. -/
def compute_accessibility_gain (driving_times pt_times : String → Option ℚ)
    (comfort : Comfort) : List (String × Option ℚ) :=
  CITY_IDS.map (fun c => (c, gainForCity driving_times pt_times comfort c))

/-- The per-city `valid`/`min(valid)` step of `compute_status_quo_access`:
raw driving minutes (no comfort discount) and comfort-weighted transit
minutes, minimum over whichever of the two is present. -/
def bestExisting (drive_min pt_min : Option ℚ) : Option ℚ :=
  match ([drive_min, pt_min].filterMap id) with
  | [] => none
  | x :: xs => some (xs.foldl min x)

/-- `compute_status_quo_access` from `05_compute_scores.py`: mean over
cities of the best currently-available (non-AV) time, null when no city
has any valid mode. -/
def compute_status_quo_access (driving_times pt_times : String → Option ℚ)
    (comfort : Comfort) : Option ℚ :=
  let times := CITY_IDS.filterMap (fun c =>
    bestExisting ((driving_times c).map (fun d => d / 60))
      ((pt_times c).map (fun p => p / 60 * comfort.oev_sitting_factor)))
  match times with
  | [] => none
  | _ => some (times.sum / times.length)

/-- Minimum of a list of rationals, `none` on the empty list (models
Python `min(xs)` guarded by non-emptiness). -/
def listMin (xs : List ℚ) : Option ℚ :=
  match xs with
  | [] => none
  | x :: t => some (t.foldl min x)

/-- Maximum of a list of rationals, `none` on the empty list. -/
def listMax (xs : List ℚ) : Option ℚ :=
  match xs with
  | [] => none
  | x :: t => some (t.foldl max x)

/-- `normalize_values` from `05_compute_scores.py` (identical in
`06_generate_demo.py`): rescale the non-null values to 0–100, null
positions preserved; all non-null positions become `50` when there are
no non-null values or they are all equal. -/
def normalize_values (values : List (Option ℚ)) (invert : Bool) : List (Option ℚ) :=
  let valid := values.filterMap id
  match listMin valid, listMax valid with
  | some lo, some hi =>
    if lo = hi then values.map (fun v => v.map (fun _ => 50))
    else values.map (fun v => v.map (fun x =>
      let normalized := (x - lo) / (hi - lo) * 100
      pyRound (if invert then 100 - normalized else normalized) 1))
  | _, _ => values.map (fun v => v.map (fun _ => 50))

/-- The scoring-weight table `SCORING_WEIGHTS` from `config.py` as a
lookup on component keys. -/
def SCORING_WEIGHTS : String → ℚ :=
  fun k =>
    if k = "accessibility_gain" then 1/2
    else if k = "inherent_attractiveness" then 1/2
    else 0

/-- The combined-score computation inlined in `compute_scores`: keep the
non-null components, sum their weights, and when that total is positive
return `Σ v·w/total`; otherwise null. -/
def combine_score (w : String → ℚ) (components : List (String × Option ℚ)) :
    Option ℚ :=
  let valid := components.filterMap (fun kv => kv.2.map (fun v => (kv.1, v)))
  match valid with
  | [] => none
  | _ =>
    let total := (valid.map (fun kv => w kv.1)).sum
    if 0 < total then some ((valid.map (fun kv => kv.2 * w kv.1 / total)).sum)
    else none

/-- The best-city loop of `compute_scores`: starting from `-inf`, keep
the first city whose non-null gain strictly exceeds the running best. -/
def best_city (gains : List (String × Option ℚ)) : Option String :=
  (gains.foldl (fun acc kv =>
    match kv.2 with
    | none => acc
    | some g =>
      match acc with
      | none => some (kv.1, g)
      | some bc => if g > bc.2 then some (kv.1, g) else acc) none).map
    (fun bc => bc.1)

/-- The serialization idiom `round(v, 1) if v else None` used for
`gain_per_city`, `status_quo_access` and `inherent_attractiveness_raw`:
Python truthiness turns both a null and an exactly-zero value into null,
and rounds everything else to one decimal. -/
def roundIfTruthy (v : Option ℚ) : Option ℚ :=
  match v with
  | none => none
  | some x => if x = 0 then none else some (pyRound x 1)

/-- A merged price record as read back by the scoring stage; only the
field the engine uses is modelled. -/
structure PriceData where
  chf_per_m2 : Option ℚ
deriving Repr, DecidableEq

/-- A tax record as read by the scoring stage. -/
structure TaxData where
  multiplier : Option ℚ
deriving Repr, DecidableEq

/-- A municipality-catalog record; the fields the scoring stage reads. -/
structure Muni where
  name : String
  canton : String
  canton_code : String
deriving Repr, DecidableEq

/-- A settlement point from `settlement_points.json`; optional fields
model `s.get(...)` accesses with their fallbacks. -/
structure Settlement where
  uuid : String
  name : String
  municipality_id : Option String
  municipality_name : Option String
  canton : Option String
  pop_category : Option String
  lat : ℚ
  lon : ℚ
deriving Repr, DecidableEq

/-- The intermediate per-settlement feature record built by the first
loop of `compute_scores`. -/
structure Feature where
  uuid : String
  settlement_name : String
  pop_category : String
  municipality_id : Option String
  name : String
  canton : String
  canton_code : String
  lat : ℚ
  lon : ℚ
  driving : String → Option ℚ
  pt : String → Option ℚ
  price_data : Option PriceData
  tax_data : Option TaxData

/-- Association-list lookup modelling Python `dict.get(key)`. -/
def lookupA {α : Type} (l : List (String × α)) (k : String) : Option α :=
  (l.find? (fun kv => kv.1 == k)).map (fun kv => kv.2)

/-- The feature-building loop of `compute_scores`: each settlement keeps
its own travel times (falling back to the municipality-level tables when
its own dict is missing or empty, which Python tests by dict
truthiness), and inherits municipality-level name/canton, price and tax.
A per-settlement travel-time table is `Option (String → Option ℚ)`, with
`none` standing for a missing or empty (falsy) dict. -/
def build_features (municipalities : List (String × Muni))
    (settlements : List Settlement)
    (settlement_drive settlement_pt : String → Option (String → Option ℚ))
    (muni_driving muni_pt : String → Option (String → Option ℚ)) :
    (prices : String → Option PriceData) → (taxes : String → Option TaxData) →
    List Feature :=
  fun prices taxes =>
  settlements.map (fun s =>
    let mid := s.municipality_id
    let d : String → Option ℚ :=
      match settlement_drive s.uuid with
      | some dd => dd
      | none =>
        match mid with
        | some m => (muni_driving m).getD (fun _ => none)
        | none => fun _ => none
    let pt : String → Option ℚ :=
      match settlement_pt s.uuid with
      | some dd => dd
      | none =>
        match mid with
        | some m => (muni_pt m).getD (fun _ => none)
        | none => fun _ => none
    let muni := mid.bind (lookupA municipalities)
    { uuid := s.uuid
      settlement_name := s.name
      pop_category := s.pop_category.getD ""
      municipality_id := mid
      name := (muni.map Muni.name).getD ((s.municipality_name).getD s.name)
      canton := (muni.map Muni.canton).getD ((s.canton).getD "")
      canton_code := (muni.map Muni.canton_code).getD ""
      lat := s.lat
      lon := s.lon
      driving := d
      pt := pt
      price_data := mid.bind prices
      tax_data := mid.bind taxes })

/-- The raw accessibility-gain scalar per feature (first sub-score pass
of `compute_scores`): mean of the non-null per-city gains, null when
every city is null. -/
def raw_gain_of (sf : Feature) : Option ℚ :=
  let gains := compute_accessibility_gain sf.driving sf.pt COMFORT
  let valid := gains.filterMap (fun kv => kv.2)
  match valid with
  | [] => none
  | _ => some (valid.sum / valid.length)

/-- The raw inherent-attractiveness value per feature (second sub-score
pass of `compute_scores`): `chf_per_m2 / status_quo` guarded by Python
truthiness of the price record, of its `chf_per_m2` field and of the
status-quo value, plus the explicit `sq > 0` check. -/
def raw_attractiveness (price_data : Option PriceData) (sq : Option ℚ) :
    Option ℚ :=
  match price_data, sq with
  | some p, some s =>
    match p.chf_per_m2 with
    | some c => if c ≠ 0 ∧ s ≠ 0 ∧ 0 < s then some (c / s) else none
    | none => none
  | _, _ => none

/-- The final per-point output record of `compute_scores` (the property
bag of an emitted GeoJSON feature, minus the constant `type` keys). -/
structure ScoredPoint where
  id : String
  settlement_name : String
  municipality_id : Option String
  name : String
  canton : String
  canton_code : String
  pop_category : String
  lat : ℚ
  lon : ℚ
  drive_times : List (String × Option ℚ)
  pt_times : List (String × Option ℚ)
  min_drive_s : Option ℚ
  min_pt_s : Option ℚ
  gain_per_city : List (String × Option ℚ)
  best_city : Option String
  chf_per_m2 : Option ℚ
  tax_multiplier : Option ℚ
  status_quo_access : Option ℚ
  inherent_attractiveness_raw : Option ℚ
  score_accessibility : Option ℚ
  score_attractiveness : Option ℚ
  autonomy_score : Option ℚ

/-- The body of the final loop of `compute_scores` for one feature at
index `i`, given its normalized gain `ng`, normalized attractiveness
`na`, raw status quo `sq` and raw attractiveness `ra`. -/
def score_point (w : String → ℚ) (i : ℕ) (sf : Feature)
    (ng na sq ra : Option ℚ) : ScoredPoint :=
  let gains := compute_accessibility_gain sf.driving sf.pt COMFORT
  let score := combine_score w
    [("accessibility_gain", ng), ("inherent_attractiveness", na)]
  { id := "s_" ++ toString i
    settlement_name := sf.settlement_name
    municipality_id := sf.municipality_id
    name := sf.name
    canton := sf.canton
    canton_code := sf.canton_code
    pop_category := sf.pop_category
    lat := sf.lat
    lon := sf.lon
    drive_times := CITY_IDS.map (fun c => (c, sf.driving c))
    pt_times := CITY_IDS.map (fun c => (c, sf.pt c))
    min_drive_s := listMin (CITY_IDS.filterMap sf.driving)
    min_pt_s := listMin (CITY_IDS.filterMap sf.pt)
    gain_per_city := gains.map (fun kv => (kv.1, roundIfTruthy kv.2))
    best_city := best_city gains
    chf_per_m2 := sf.price_data.bind PriceData.chf_per_m2
    tax_multiplier := sf.tax_data.bind TaxData.multiplier
    status_quo_access := roundIfTruthy sq
    inherent_attractiveness_raw := roundIfTruthy ra
    score_accessibility := ng
    score_attractiveness := na
    autonomy_score := score.map (fun v => pyRound v 1) }

/-- The final enumerate-and-score loop of `compute_scores`, walking the
feature list in parallel with the two normalized sub-score lists and the
two raw-value lists. -/
def score_loop (w : String → ℚ) : ℕ → List Feature → List (Option ℚ) →
    List (Option ℚ) → List (Option ℚ) → List (Option ℚ) → List ScoredPoint
  | i, sf :: fs, ng :: ngs, na :: nas, sq :: sqs, ra :: ras =>
    score_point w i sf ng na sq ra :: score_loop w (i + 1) fs ngs nas sqs ras
  | _, _, _, _, _, _ => []

/-- `compute_scores` from `05_compute_scores.py`: build features,
compute the two raw sub-score lists, normalize each across the whole
run, and emit one `ScoredPoint` per settlement.  (The unused
`settlement_mapping` parameter of the Python function is omitted.) -/
def compute_scores (municipalities : List (String × Muni))
    (settlements : List Settlement)
    (settlement_drive settlement_pt : String → Option (String → Option ℚ))
    (muni_driving muni_pt : String → Option (String → Option ℚ))
    (prices : String → Option PriceData) (taxes : String → Option TaxData) :
    List ScoredPoint :=
  let features := build_features municipalities settlements settlement_drive
    settlement_pt muni_driving muni_pt prices taxes
  let raw_gains := features.map raw_gain_of
  let raw_status_quo := features.map (fun sf =>
    compute_status_quo_access sf.driving sf.pt COMFORT)
  let raw_attr := features.map (fun sf =>
    raw_attractiveness sf.price_data
      (compute_status_quo_access sf.driving sf.pt COMFORT))
  let norm_gains := normalize_values raw_gains false
  let norm_attract := normalize_values raw_attr false
  score_loop SCORING_WEIGHTS 0 features norm_gains norm_attract
    raw_status_quo raw_attr

/-- `aggregate_to_municipalities` from `02b_fetch_travel_times_plz.py`
(the settlement variant in `02c_fetch_travel_times_settlements.py` is
identical up to naming): for each municipality and each reference city,
the minimum of the non-null point-level times of its points, null when
none is available.  `point_times p c` models
`point_times.get(p, {}).get(c)`. -/
def aggregate_to_municipalities (point_times : String → String → Option ℚ)
    (muni_to_points : List (String × List String)) :
    List (String × List (String × Option ℚ)) :=
  muni_to_points.map (fun mp =>
    (mp.1, CITY_IDS.map (fun c =>
      (c, listMin (mp.2.filterMap (fun p => point_times p c))))))

/-- A source price record as loaded by `04_merge_prices.py`; only the
merged field the claims speak about is modelled (the remaining payload
is carried through unchanged by `dict(n)` / `dict(h)`). -/
structure PriceRec where
  chf_per_m2 : Option ℚ
deriving Repr, DecidableEq

/-- A merged price record: the primary `chf_per_m2` plus the secondary
`homegate_chf_per_m2` field added only when both sources are available
(`none` models the key being absent). -/
structure MergedRec where
  chf_per_m2 : Option ℚ
  homegate_chf_per_m2 : Option ℚ
deriving Repr, DecidableEq

/-- Python truthiness of an optional number (`if v.get("chf_per_m2"):`):
present and nonzero. -/
def truthy (v : Option ℚ) : Bool :=
  match v with
  | none => false
  | some x => x != 0

/-- The merge loop of `04_merge_prices.py`: filter each source to the
records with a truthy `chf_per_m2` (Neho additionally dropping `_slug_`
bookkeeping keys), then for every municipality id take Neho as primary —
retaining Homegate's value as `homegate_chf_per_m2` when both exist —
else whichever single source has the id. -/
def merge_prices (all_ids : List String)
    (neho_raw homegate_raw : List (String × PriceRec)) :
    List (String × MergedRec) :=
  let neho := neho_raw.filter (fun kv =>
    !(kv.1.startsWith "_slug_") && truthy kv.2.chf_per_m2)
  let homegate := homegate_raw.filter (fun kv => truthy kv.2.chf_per_m2)
  all_ids.filterMap (fun mid =>
    match lookupA neho mid, lookupA homegate mid with
    | some n, some h =>
      some (mid, { chf_per_m2 := n.chf_per_m2,
                   homegate_chf_per_m2 := h.chf_per_m2 })
    | some n, none =>
      some (mid, { chf_per_m2 := n.chf_per_m2, homegate_chf_per_m2 := none })
    | none, some h =>
      some (mid, { chf_per_m2 := h.chf_per_m2, homegate_chf_per_m2 := none })
    | none, none => none)

/-- The total-multiplier computation of `parse_excel` in
`04_fetch_taxes.py`: `round(canton + commune, 2)` when both rates are
present, `round(commune, 2)` when only the commune rate is present, and
null otherwise — in particular null in the canton-only case. -/
def tax_total (canton_multiplier commune_multiplier : Option ℚ) : Option ℚ :=
  match canton_multiplier, commune_multiplier with
  | some c, some m => some (pyRound (c + m) 2)
  | none, some m => some (pyRound m 2)
  | _, none => none

/-! ## Helper lemmas -/

theorem roundHalfEven_intCast (z : ℤ) : roundHalfEven (z : ℚ) = z := by
  simp only [roundHalfEven, Int.floor_intCast, sub_self]
  norm_num

theorem pyRound_intCast (z : ℤ) (n : ℕ) : pyRound (z : ℚ) n = z := by
  have h : ((z : ℚ) * 10 ^ n) = ((z * 10 ^ n : ℤ) : ℚ) := by push_cast; ring
  rw [pyRound, h, roundHalfEven_intCast]
  push_cast
  have hpow : (10 : ℚ) ^ n ≠ 0 := by positivity
  field_simp

theorem foldl_min_mem (xs : List ℚ) : ∀ x : ℚ, xs.foldl min x ∈ x :: xs := by
  induction xs with
  | nil => simp
  | cons y ys ih =>
    intro x
    have h := ih (min x y)
    rcases List.mem_cons.mp h with h1 | h1
    · rcases min_choice x y with h2 | h2 <;> rw [h2] at h1 <;>
        simp [List.foldl_cons, h2, h1]
    · simp only [List.foldl_cons]
      exact List.mem_cons_of_mem _ (List.mem_cons_of_mem _ h1)

theorem foldl_min_le (xs : List ℚ) :
    ∀ x : ℚ, ∀ y ∈ x :: xs, xs.foldl min x ≤ y := by
  induction xs with
  | nil => simp
  | cons z zs ih =>
    intro x y hy
    rcases List.mem_cons.mp hy with hxy | hy2
    · rw [hxy]
      have h := ih (min x z) (min x z) (List.mem_cons_self _ _)
      exact le_trans h (min_le_left _ _)
    · rcases List.mem_cons.mp hy2 with hyz | hy3
      · rw [hyz]
        have h := ih (min x z) (min x z) (List.mem_cons_self _ _)
        exact le_trans h (min_le_right _ _)
      · exact ih (min x z) y (List.mem_cons_of_mem _ hy3)

theorem foldl_max_mem (xs : List ℚ) : ∀ x : ℚ, xs.foldl max x ∈ x :: xs := by
  induction xs with
  | nil => simp
  | cons y ys ih =>
    intro x
    have h := ih (max x y)
    rcases List.mem_cons.mp h with h1 | h1
    · rcases max_choice x y with h2 | h2 <;> rw [h2] at h1 <;>
        simp [List.foldl_cons, h2, h1]
    · simp only [List.foldl_cons]
      exact List.mem_cons_of_mem _ (List.mem_cons_of_mem _ h1)

theorem le_foldl_max (xs : List ℚ) :
    ∀ x : ℚ, ∀ y ∈ x :: xs, y ≤ xs.foldl max x := by
  induction xs with
  | nil => simp
  | cons z zs ih =>
    intro x y hy
    rcases List.mem_cons.mp hy with hxy | hy2
    · rw [hxy]
      have h := ih (max x z) (max x z) (List.mem_cons_self _ _)
      exact le_trans (le_max_left _ _) h
    · rcases List.mem_cons.mp hy2 with hyz | hy3
      · rw [hyz]
        have h := ih (max x z) (max x z) (List.mem_cons_self _ _)
        exact le_trans (le_max_right _ _) h
      · exact ih (max x z) y (List.mem_cons_of_mem _ hy3)

theorem listMin_mem {xs : List ℚ} {m : ℚ} (h : listMin xs = some m) : m ∈ xs := by
  cases xs with
  | nil => simp [listMin] at h
  | cons x t =>
    simp only [listMin, Option.some.injEq] at h
    subst h
    exact foldl_min_mem t x

theorem listMin_le {xs : List ℚ} {m : ℚ} (h : listMin xs = some m) :
    ∀ y ∈ xs, m ≤ y := by
  cases xs with
  | nil => simp [listMin] at h
  | cons x t =>
    simp only [listMin, Option.some.injEq] at h
    subst h
    exact foldl_min_le t x

theorem listMax_mem {xs : List ℚ} {m : ℚ} (h : listMax xs = some m) : m ∈ xs := by
  cases xs with
  | nil => simp [listMax] at h
  | cons x t =>
    simp only [listMax, Option.some.injEq] at h
    subst h
    exact foldl_max_mem t x

theorem le_listMax {xs : List ℚ} {m : ℚ} (h : listMax xs = some m) :
    ∀ y ∈ xs, y ≤ m := by
  cases xs with
  | nil => simp [listMax] at h
  | cons x t =>
    simp only [listMax, Option.some.injEq] at h
    subst h
    exact le_foldl_max t x

/-! ## C1: the per-city accessibility gain -/

/-- C1: per reference city, `compute_accessibility_gain` yields null iff
the city's driving or transit duration is null; when both are present
the gain is exactly
`min(drive/60, transit/60 × oev_sitting_factor) − drive/60 × av_factor`. -/
theorem C1_accessibility_gain (driving pt : String → Option ℚ)
    (comfort : Comfort) (city : String) (hc : city ∈ CITY_IDS) :
    ((city, (none : Option ℚ)) ∈ compute_accessibility_gain driving pt comfort
      ↔ driving city = none ∨ pt city = none)
    ∧ ∀ d p, driving city = some d → pt city = some p →
        (city, some (min (d / 60) (p / 60 * comfort.oev_sitting_factor)
          - d / 60 * comfort.av_factor))
          ∈ compute_accessibility_gain driving pt comfort := by
  constructor
  · simp only [compute_accessibility_gain, List.mem_map, Prod.mk.injEq]
    constructor
    · rintro ⟨c, hcm, rfl, hg⟩
      revert hg
      unfold gainForCity
      cases hd : driving c <;> cases hp : pt c <;> simp
    · intro h
      refine ⟨city, hc, rfl, ?_⟩
      unfold gainForCity
      rcases h with h | h <;> cases hd : driving city <;> cases hp : pt city <;>
        simp_all
  · intro d p hd hp
    refine List.mem_map.mpr ⟨city, hc, ?_⟩
    simp [gainForCity, hd, hp]

/-! ## C2: the normalizer -/

theorem normalize_values_of_empty (values : List (Option ℚ)) (invert : Bool)
    (h : values.filterMap id = []) :
    normalize_values values invert = values.map (Option.map (fun _ => 50)) := by
  simp only [normalize_values, h, listMin, listMax]

theorem normalize_values_of_const (values : List (Option ℚ)) (invert : Bool)
    (c : ℚ) (hmin : listMin (values.filterMap id) = some c)
    (hmax : listMax (values.filterMap id) = some c) :
    normalize_values values invert = values.map (Option.map (fun _ => 50)) := by
  simp [normalize_values, hmin, hmax]

theorem normalize_values_of_spread (values : List (Option ℚ)) (lo hi : ℚ)
    (hmin : listMin (values.filterMap id) = some lo)
    (hmax : listMax (values.filterMap id) = some hi) (hne : lo ≠ hi) :
    normalize_values values false
      = values.map (Option.map (fun x => pyRound ((x - lo) / (hi - lo) * 100) 1)) := by
  simp only [normalize_values, hmin, hmax, if_neg hne, Bool.false_eq_true,
    if_false]

/-- C2: the normalizer keeps null positions null; when there are no
non-null values or they are all equal, every non-null position becomes
exactly 50; otherwise a non-null value `v` becomes
`round((v − min)/(max − min) × 100, 1)`.  In particular a constant
all-non-null list of length `N` normalizes to `[50] × N` and `[a, b]`
with `a < b` normalizes to `[0, 100]`. -/
theorem C2_normalize_values (values : List (Option ℚ)) :
    (∀ i : ℕ, values[i]? = some none →
      (normalize_values values false)[i]? = some none)
    ∧ ((values.filterMap id = [] ∨
          ∀ a ∈ values.filterMap id, ∀ b ∈ values.filterMap id, a = b) →
        ∀ i : ℕ, ∀ v : ℚ, values[i]? = some (some v) →
          (normalize_values values false)[i]? = some (some 50))
    ∧ (∀ lo hi : ℚ, listMin (values.filterMap id) = some lo →
        listMax (values.filterMap id) = some hi → lo ≠ hi →
        ∀ i : ℕ, ∀ v : ℚ, values[i]? = some (some v) →
          (normalize_values values false)[i]?
            = some (some (pyRound ((v - lo) / (hi - lo) * 100) 1)))
    ∧ (∀ (N : ℕ) (c : ℚ),
        normalize_values (List.replicate N (some c)) false
          = List.replicate N (some 50))
    ∧ (∀ a b : ℚ, a < b →
        normalize_values [some a, some b] false = [some 0, some 100]) := by
  have hfifty : (values.filterMap id = [] ∨
      ∀ a ∈ values.filterMap id, ∀ b ∈ values.filterMap id, a = b) →
      normalize_values values false = values.map (Option.map (fun _ => 50)) := by
    intro h
    rcases h with h | h
    · exact normalize_values_of_empty values false h
    · cases hv : values.filterMap id with
      | nil => exact normalize_values_of_empty values false hv
      | cons x t =>
        have hmin : listMin (values.filterMap id) = some (t.foldl min x) := by
          rw [hv]; rfl
        have hmax : listMax (values.filterMap id) = some (t.foldl max x) := by
          rw [hv]; rfl
        have hlomem : t.foldl min x ∈ values.filterMap id := listMin_mem hmin
        have hhimem : t.foldl max x ∈ values.filterMap id := listMax_mem hmax
        have hximem : x ∈ values.filterMap id := by
          rw [hv]
          exact List.mem_cons_self _ _
        have hlo : t.foldl min x = x := h _ hlomem _ hximem
        have hhi : t.foldl max x = x := h _ hhimem _ hximem
        exact normalize_values_of_const values false x (hlo ▸ hmin) (hhi ▸ hmax)
  refine ⟨?_, ?_, ?_, ?_, ?_⟩
  · intro i hi
    have hshape : ∃ g : ℚ → ℚ,
        normalize_values values false = values.map (Option.map g) := by
      cases hv : values.filterMap id with
      | nil => exact ⟨fun _ => 50, normalize_values_of_empty values false hv⟩
      | cons x t =>
        have hmin : listMin (values.filterMap id) = some (t.foldl min x) := by
          rw [hv]; rfl
        have hmax : listMax (values.filterMap id) = some (t.foldl max x) := by
          rw [hv]; rfl
        by_cases heq : t.foldl min x = t.foldl max x
        · exact ⟨fun _ => 50,
            normalize_values_of_const values false _ hmin (heq ▸ hmax)⟩
        · exact ⟨_, normalize_values_of_spread values _ _ hmin hmax heq⟩
    obtain ⟨g, hg⟩ := hshape
    rw [hg, List.getElem?_map, hi]
    rfl
  · intro h i v hiv
    rw [hfifty h, List.getElem?_map, hiv]
    rfl
  · intro lo hi hmin hmax hne i v hiv
    rw [normalize_values_of_spread values lo hi hmin hmax hne,
      List.getElem?_map, hiv]
    rfl
  · intro N c
    cases N with
    | zero => rfl
    | succ n =>
      have hv : (List.replicate (n + 1) (some c)).filterMap id
          = List.replicate (n + 1) c := by
        simp [List.filterMap_replicate]
      have hrep : List.replicate (n + 1) c = c :: List.replicate n c :=
        List.replicate_succ c n
      have hmin : listMin ((List.replicate (n + 1) (some c)).filterMap id)
          = some ((List.replicate n c).foldl min c) := by
        rw [hv, hrep]; rfl
      have hmax : listMax ((List.replicate (n + 1) (some c)).filterMap id)
          = some ((List.replicate n c).foldl max c) := by
        rw [hv, hrep]; rfl
      have hlomem := listMin_mem hmin
      have hhimem := listMax_mem hmax
      rw [hv] at hlomem hhimem
      have hlo : (List.replicate n c).foldl min c = c :=
        List.eq_of_mem_replicate hlomem
      have hhi : (List.replicate n c).foldl max c = c :=
        List.eq_of_mem_replicate hhimem
      rw [hlo] at hmin
      rw [hhi] at hmax
      rw [normalize_values_of_const _ false c hmin hmax, List.map_replicate]
      rfl
  · intro a b hab
    have hv : ([some a, some b] : List (Option ℚ)).filterMap id = [a, b] := by
      simp
    have hmin : listMin (([some a, some b] : List (Option ℚ)).filterMap id)
        = some a := by
      rw [hv]
      simp [listMin, min_eq_left (le_of_lt hab)]
    have hmax : listMax (([some a, some b] : List (Option ℚ)).filterMap id)
        = some b := by
      rw [hv]
      simp [listMax, max_eq_right (le_of_lt hab)]
    have hne : a ≠ b := ne_of_lt hab
    have hba : b - a ≠ 0 := sub_ne_zero.mpr (ne_of_gt hab)
    have hz : pyRound (0 : ℚ) 1 = 0 := by simpa using pyRound_intCast 0 1
    have h0 : pyRound ((a - a) / (b - a) * 100) 1 = 0 := by
      have e0 : ((a - a) / (b - a) * 100 : ℚ) = 0 := by
        rw [sub_self]
        simp
      rw [e0, hz]
    have h100 : pyRound ((b - a) / (b - a) * 100) 1 = 100 := by
      rw [div_self hba, one_mul]
      simpa using pyRound_intCast 100 1
    rw [normalize_values_of_spread _ a b hmin hmax hne]
    simp only [List.map_cons, List.map_nil, Option.map_some']
    rw [h0, h100]

/-- Witness for C2 on `[2, 5]`: normalizing yields `[0, 100]`. -/
theorem C2_normalize_values_witness :
    normalize_values [some (2 : ℚ), some 5] false = [some 0, some 100] :=
  (C2_normalize_values [some 2, some 5]).2.2.2.2 2 5 (by norm_num)

/-! ## C3: the weighted score combiner -/

/-- C3: the combiner keeps exactly the non-null sub-scores, divides the
weighted sum by the total included weight when that total is positive,
and yields null when nothing is included or the total included weight is
not positive; with a single non-null sub-score of positive weight it is
the identity on that sub-score. -/
theorem C3_combine_score (w : String → ℚ) :
    (∀ gv av : ℚ,
      (0 < w "accessibility_gain" + w "inherent_attractiveness" →
        combine_score w [("accessibility_gain", some gv),
            ("inherent_attractiveness", some av)]
          = some ((gv * w "accessibility_gain"
              + av * w "inherent_attractiveness")
              / (w "accessibility_gain" + w "inherent_attractiveness")))
      ∧ (¬ 0 < w "accessibility_gain" + w "inherent_attractiveness" →
        combine_score w [("accessibility_gain", some gv),
            ("inherent_attractiveness", some av)] = none))
    ∧ (∀ gv : ℚ,
      (0 < w "accessibility_gain" →
        combine_score w [("accessibility_gain", some gv),
            ("inherent_attractiveness", none)] = some gv)
      ∧ (¬ 0 < w "accessibility_gain" →
        combine_score w [("accessibility_gain", some gv),
            ("inherent_attractiveness", none)] = none))
    ∧ (∀ av : ℚ,
      (0 < w "inherent_attractiveness" →
        combine_score w [("accessibility_gain", none),
            ("inherent_attractiveness", some av)] = some av)
      ∧ (¬ 0 < w "inherent_attractiveness" →
        combine_score w [("accessibility_gain", none),
            ("inherent_attractiveness", some av)] = none))
    ∧ combine_score w [("accessibility_gain", none),
        ("inherent_attractiveness", none)] = none := by
  refine ⟨?_, ?_, ?_, ?_⟩
  · intro gv av
    constructor
    · intro hpos
      simp only [combine_score, List.filterMap_cons, Option.map_some',
        List.filterMap_nil, List.map_cons, List.map_nil, List.sum_cons,
        List.sum_nil, add_zero]
      rw [if_pos hpos]
      rw [div_add_div_same]
    · intro hpos
      simp only [combine_score, List.filterMap_cons, Option.map_some',
        List.filterMap_nil, List.map_cons, List.map_nil, List.sum_cons,
        List.sum_nil, add_zero]
      rw [if_neg hpos]
  · intro gv
    constructor
    · intro hpos
      simp only [combine_score, List.filterMap_cons, Option.map_some',
        Option.map_none', List.filterMap_nil, List.map_cons, List.map_nil,
        List.sum_cons, List.sum_nil, add_zero]
      rw [if_pos hpos]
      rw [mul_div_assoc, div_self (ne_of_gt hpos), mul_one]
    · intro hpos
      simp only [combine_score, List.filterMap_cons, Option.map_some',
        Option.map_none', List.filterMap_nil, List.map_cons, List.map_nil,
        List.sum_cons, List.sum_nil, add_zero]
      rw [if_neg hpos]
  · intro av
    constructor
    · intro hpos
      simp only [combine_score, List.filterMap_cons, Option.map_some',
        Option.map_none', List.filterMap_nil, List.map_cons, List.map_nil,
        List.sum_cons, List.sum_nil, add_zero]
      rw [if_pos hpos]
      rw [mul_div_assoc, div_self (ne_of_gt hpos), mul_one]
    · intro hpos
      simp only [combine_score, List.filterMap_cons, Option.map_some',
        Option.map_none', List.filterMap_nil, List.map_cons, List.map_nil,
        List.sum_cons, List.sum_nil, add_zero]
      rw [if_neg hpos]
  · rfl

/-- Witness for C3 with the configured weights: a point whose only
non-null sub-score is an accessibility gain of 80 combines to exactly
80. -/
theorem C3_combine_score_witness :
    combine_score SCORING_WEIGHTS [("accessibility_gain", some (80 : ℚ)),
      ("inherent_attractiveness", none)] = some 80 :=
  ((C3_combine_score SCORING_WEIGHTS).2.1 80).1 (by norm_num [SCORING_WEIGHTS])

/-! ## C4: status-quo accessibility -/

/-- The per-city best-existing time as the design document states it:
`min(raw drive minutes, transit minutes × oev_sitting_factor)`, a city
with a single non-null mode contributing that mode's value, and null
when both modes are null.  Stated from the spec to be compared against
`compute_status_quo_access`. -/
def perCityBest (driving pt : String → Option ℚ) (comfort : Comfort)
    (c : String) : Option ℚ :=
  match driving c, pt c with
  | some d, some p => some (min (d / 60) (p / 60 * comfort.oev_sitting_factor))
  | some d, none => some (d / 60)
  | none, some p => some (p / 60 * comfort.oev_sitting_factor)
  | none, none => none

/-- C4: `compute_status_quo_access` is null exactly when every reference
city has both modes null, and otherwise is the arithmetic mean of the
per-city bests over the cities with at least one non-null mode. -/
theorem C4_status_quo (driving pt : String → Option ℚ) (comfort : Comfort) :
    (compute_status_quo_access driving pt comfort = none
      ↔ ∀ c ∈ CITY_IDS, driving c = none ∧ pt c = none)
    ∧ (CITY_IDS.filterMap (perCityBest driving pt comfort) ≠ [] →
       compute_status_quo_access driving pt comfort
         = some ((CITY_IDS.filterMap (perCityBest driving pt comfort)).sum
             / (CITY_IDS.filterMap (perCityBest driving pt comfort)).length)) := by
  have hfun : (fun c => bestExisting ((driving c).map (fun d => d / 60))
      ((pt c).map (fun p => p / 60 * comfort.oev_sitting_factor)))
      = perCityBest driving pt comfort := by
    funext c
    cases hd : driving c <;> cases hp : pt c <;>
      simp [bestExisting, perCityBest, hd, hp]
  have hnone : ∀ c, perCityBest driving pt comfort c = none
      ↔ (driving c = none ∧ pt c = none) := by
    intro c
    cases hd : driving c <;> cases hp : pt c <;> simp [perCityBest, hd, hp]
  constructor
  · simp only [compute_status_quo_access, hfun]
    cases hts : CITY_IDS.filterMap (perCityBest driving pt comfort) with
    | nil =>
      simp only [hts]
      have h1 : ∀ c ∈ CITY_IDS, perCityBest driving pt comfort c = none :=
        List.filterMap_eq_nil_iff.mp hts
      refine iff_of_true trivial ?_
      intro c hc
      exact (hnone c).mp (h1 c hc)
    | cons x t =>
      simp only [hts]
      refine iff_of_false (by simp) ?_
      intro h
      have hnil : CITY_IDS.filterMap (perCityBest driving pt comfort) = [] :=
        List.filterMap_eq_nil_iff.mpr (fun c hc => (hnone c).mpr (h c hc))
      rw [hnil] at hts
      exact absurd hts (by simp)
  · intro hne
    simp only [compute_status_quo_access, hfun]

/-- Witness for C4: drive 600 s to every city, transit null everywhere:
every city's best is 10 raw minutes and the mean is 10. -/
theorem C4_status_quo_witness :
    compute_status_quo_access (fun _ => some (600 : ℚ)) (fun _ => none)
      COMFORT = some 10 := by
  have h := (C4_status_quo (fun _ => some (600 : ℚ)) (fun _ => none) COMFORT).2
    (by simp [perCityBest, CITY_IDS, List.filterMap_cons])
  simp only [perCityBest, CITY_IDS, List.filterMap_cons, List.filterMap_nil,
    List.sum_cons, List.sum_nil, List.length_cons, List.length_nil] at h
  norm_num at h
  exact h

/-! ## C5: raw inherent attractiveness -/

/-- Counterexample to C5 as stated: a present but negative `chf_per_m2`
passes the code's truthiness test, so with `chf_per_m2 = -100` and a
status quo of 10 the raw attractiveness is `-10`, not null as the claim
requires for a negative price. -/
theorem C5_attractiveness_counterexample :
    raw_attractiveness (some { chf_per_m2 := some (-100) }) (some 10)
        = some (-10)
      ∧ raw_attractiveness (some { chf_per_m2 := some (-100) }) (some 10)
        ≠ none := by
  constructor
  · norm_num [raw_attractiveness]
  · norm_num [raw_attractiveness]
    intro h
    exact Option.noConfusion h

/-- C5 (amended): the raw attractiveness equals `chf_per_m2 / sq`
exactly when the price record is present with a non-null, *nonzero*
(possibly negative) `chf_per_m2` and the status quo is present and
strictly positive; it is null in every other case. -/
theorem C5_attractiveness (pd : Option PriceData) (sq : Option ℚ) :
    (raw_attractiveness pd sq = none ↔
      ¬ ∃ p c s, pd = some p ∧ p.chf_per_m2 = some c ∧ c ≠ 0 ∧
        sq = some s ∧ 0 < s)
    ∧ ∀ p c s, pd = some p → p.chf_per_m2 = some c → c ≠ 0 → sq = some s →
        0 < s → raw_attractiveness pd sq = some (c / s) := by
  constructor
  · cases pd with
    | none => simp [raw_attractiveness]
    | some p =>
      cases sq with
      | none => simp [raw_attractiveness]
      | some s =>
        cases hpc : p.chf_per_m2 with
        | none => simp [raw_attractiveness, hpc]
        | some c =>
          by_cases hc : c = 0
          · simp [raw_attractiveness, hpc, hc]
          · by_cases hs : 0 < s
            · have hsne : s ≠ 0 := ne_of_gt hs
              simp [raw_attractiveness, hpc, hc, hs, hsne]
            · have : ¬ (c ≠ 0 ∧ s ≠ 0 ∧ 0 < s) := by
                intro hcontra
                exact hs hcontra.2.2
              simp [raw_attractiveness, hpc, hc, hs, this]
  · intro p c s hp hpc hc hsq hs
    subst hp
    subst hsq
    have hsne : s ≠ 0 := ne_of_gt hs
    simp [raw_attractiveness, hpc, hc, hs, hsne]

/-- Witness for the amended C5: price 5000 CHF/m², status quo 10 min →
attractiveness 500. -/
theorem C5_attractiveness_witness :
    raw_attractiveness (some { chf_per_m2 := some 5000 }) (some 10)
      = some 500 := by
  have h := (C5_attractiveness (some { chf_per_m2 := some 5000 })
    (some 10)).2 { chf_per_m2 := some 5000 } 5000 10 rfl rfl
    (by norm_num) rfl (by norm_num)
  norm_num at h
  exact h

/-! ## C6: upward aggregation of point times -/

/-- C6: for every municipality row and reference city, the aggregated
travel time is null when every per-point time is null, and otherwise is
a non-null per-point time that is a lower bound of all non-null
per-point times (i.e. their minimum). -/
theorem C6_aggregate (point_times : String → String → Option ℚ)
    (muni_to_points : List (String × List String)) (mid : String)
    (pts : List String) (h : (mid, pts) ∈ muni_to_points) (city : String)
    (hc : city ∈ CITY_IDS) :
    ∃ cityTimes,
      (mid, cityTimes) ∈ aggregate_to_municipalities point_times muni_to_points
      ∧ (pts.filterMap (fun p => point_times p city) = [] →
          (city, (none : Option ℚ)) ∈ cityTimes)
      ∧ ∀ x t, pts.filterMap (fun p => point_times p city) = x :: t →
          ∃ m, (city, some m) ∈ cityTimes
            ∧ m ∈ pts.filterMap (fun p => point_times p city)
            ∧ ∀ v ∈ pts.filterMap (fun p => point_times p city), m ≤ v := by
  refine ⟨CITY_IDS.map (fun c =>
    (c, listMin (pts.filterMap (fun p => point_times p c)))), ?_, ?_, ?_⟩
  · exact List.mem_map.mpr ⟨(mid, pts), h, rfl⟩
  · intro hnil
    refine List.mem_map.mpr ⟨city, hc, ?_⟩
    rw [hnil]
    rfl
  · intro x t hxt
    have hmin : listMin (pts.filterMap (fun p => point_times p city))
        = some (t.foldl min x) := by
      rw [hxt]
      rfl
    refine ⟨t.foldl min x, ?_, listMin_mem hmin, listMin_le hmin⟩
    refine List.mem_map.mpr ⟨city, hc, ?_⟩
    rw [hmin]

/-- Witness for C6: the design document's example — point driving times
[300 s, 450 s, null] aggregate to 300 s. -/
theorem C6_aggregate_witness :
    ∃ cityTimes,
      ("m1", cityTimes) ∈ aggregate_to_municipalities
        (fun p _ => if p = "p1" then some 300 else
          if p = "p2" then some 450 else none)
        [("m1", ["p1", "p2", "p3"])]
      ∧ ("zurich", some (300 : ℚ)) ∈ cityTimes := by
  obtain ⟨ct, hmem, _, hcons⟩ := C6_aggregate
    (fun p _ => if p = "p1" then some 300 else
      if p = "p2" then some 450 else none)
    [("m1", ["p1", "p2", "p3"])] "m1" ["p1", "p2", "p3"]
    (List.mem_singleton.mpr rfl) "zurich" (by decide)
  have hfm : (["p1", "p2", "p3"].filterMap
      (fun p => if p = "p1" then some (300 : ℚ) else
        if p = "p2" then some 450 else none)) = [300, 450] := by decide
  obtain ⟨m, hmct, hmin, hub⟩ := hcons 300 [450] hfm
  rw [hfm] at hmin
  have hub300 := hub 300 (by rw [hfm]; norm_num)
  have hm : m = 300 := by
    rcases List.mem_cons.mp hmin with h | h
    · exact h
    · have h45 : m = 450 := by simpa using h
      rw [h45] at hub300
      norm_num at hub300
  rw [hm] at hmct
  exact ⟨ct, hmem, hmct⟩
theorem C1_accessibility_gain_witness :
    ("zurich", some (3 : ℚ)) ∈ compute_accessibility_gain
      (fun _ => some 600) (fun _ => some 900) COMFORT := by
  have h := (C1_accessibility_gain (fun _ => some 600) (fun _ => some 900)
    COMFORT "zurich" (by decide)).2 600 900 rfl rfl
  have e : min ((600 : ℚ) / 60) (900 / 60 * COMFORT.oev_sitting_factor)
      - 600 / 60 * COMFORT.av_factor = 3 := by
    norm_num [COMFORT, min_def]
  rw [e] at h
  exact h

/-! ## C7: the price merge -/

/-- Counterexample to C7 as stated: a *non-null but zero* Neho
`chf_per_m2` is filtered out by the truthiness check, so for a
municipality where Neho supplies 0 and Homegate supplies 7500 the merged
value is Homegate's 7500 with no secondary field — not Neho's 0 with
7500 retained, as the claim's "non-null" reading requires. -/
theorem C7_merge_counterexample :
    merge_prices ["m1"] [("m1", { chf_per_m2 := some 0 })]
        [("m1", { chf_per_m2 := some 7500 })]
      = [("m1", { chf_per_m2 := some 7500, homegate_chf_per_m2 := none })]
    ∧ ¬ ∃ mr : MergedRec,
        ("m1", mr) ∈ merge_prices ["m1"] [("m1", { chf_per_m2 := some 0 })]
            [("m1", { chf_per_m2 := some 7500 })]
        ∧ mr.chf_per_m2 = some 0 := by
  have h1 : merge_prices ["m1"] [("m1", { chf_per_m2 := some 0 })]
      [("m1", { chf_per_m2 := some 7500 })]
      = [("m1", { chf_per_m2 := some 7500, homegate_chf_per_m2 := none })] := by
    decide
  refine ⟨h1, ?_⟩
  rintro ⟨mr, hmem, hchf⟩
  rw [h1] at hmem
  have hpair := List.mem_singleton.mp hmem
  have hmr : mr = { chf_per_m2 := some 7500, homegate_chf_per_m2 := none } :=
    congrArg Prod.snd hpair
  rw [hmr] at hchf
  simp at hchf

/-- C7 (amended): after source-level filtering on a *truthy* (non-null,
nonzero) `chf_per_m2`, a municipality found in both sources merges to
Neho's value with Homegate's value retained as the secondary field, and
a municipality found in exactly one source takes that source's value. -/
theorem C7_merge_prices (all_ids : List String)
    (neho_raw homegate_raw : List (String × PriceRec)) (mid : String)
    (hmid : mid ∈ all_ids) :
    (∀ n h : PriceRec,
      lookupA (neho_raw.filter (fun kv =>
        !(kv.1.startsWith "_slug_") && truthy kv.2.chf_per_m2)) mid = some n →
      lookupA (homegate_raw.filter (fun kv => truthy kv.2.chf_per_m2)) mid
        = some h →
      (mid, { chf_per_m2 := n.chf_per_m2,
              homegate_chf_per_m2 := h.chf_per_m2 : MergedRec })
        ∈ merge_prices all_ids neho_raw homegate_raw)
    ∧ (∀ n : PriceRec,
      lookupA (neho_raw.filter (fun kv =>
        !(kv.1.startsWith "_slug_") && truthy kv.2.chf_per_m2)) mid = some n →
      lookupA (homegate_raw.filter (fun kv => truthy kv.2.chf_per_m2)) mid
        = none →
      (mid, { chf_per_m2 := n.chf_per_m2,
              homegate_chf_per_m2 := none : MergedRec })
        ∈ merge_prices all_ids neho_raw homegate_raw)
    ∧ (∀ h : PriceRec,
      lookupA (neho_raw.filter (fun kv =>
        !(kv.1.startsWith "_slug_") && truthy kv.2.chf_per_m2)) mid = none →
      lookupA (homegate_raw.filter (fun kv => truthy kv.2.chf_per_m2)) mid
        = some h →
      (mid, { chf_per_m2 := h.chf_per_m2,
              homegate_chf_per_m2 := none : MergedRec })
        ∈ merge_prices all_ids neho_raw homegate_raw) := by
  refine ⟨?_, ?_, ?_⟩
  · intro n h hn hh
    refine List.mem_filterMap.mpr ⟨mid, hmid, ?_⟩
    simp only [merge_prices, hn, hh]
  · intro n hn hh
    refine List.mem_filterMap.mpr ⟨mid, hmid, ?_⟩
    simp only [merge_prices, hn, hh]
  · intro h hn hh
    refine List.mem_filterMap.mpr ⟨mid, hmid, ?_⟩
    simp only [merge_prices, hn, hh]

/-- Witness for the amended C7: Neho 8000 and Homegate 7500 merge to
8000 with 7500 retained as the secondary field. -/
theorem C7_merge_prices_witness :
    ("m1", { chf_per_m2 := some 8000,
             homegate_chf_per_m2 := some 7500 : MergedRec })
      ∈ merge_prices ["m1"] [("m1", { chf_per_m2 := some 8000 })]
          [("m1", { chf_per_m2 := some 7500 })] :=
  (C7_merge_prices ["m1"] [("m1", { chf_per_m2 := some 8000 })]
    [("m1", { chf_per_m2 := some 7500 })] "m1" (by decide)).1
    { chf_per_m2 := some 8000 } { chf_per_m2 := some 7500 }
    (by decide) (by decide)

/-! ## C8: the tax total multiplier -/

/-- Counterexample to C8 as stated: a row with a canton rate of 100 and
no commune rate gets a null total, whereas the claim requires the single
present rate (the canton rate, 100) to stand alone. -/
theorem C8_tax_total_counterexample :
    tax_total (some 100) none = none
    ∧ (none : Option ℚ) ≠ some (100 : ℚ) := by
  constructor
  · rfl
  · intro h
    exact Option.noConfusion h

/-- C8 (amended): the total multiplier is `round(canton + commune, 2)`
when both rates are present and `round(commune, 2)` when only the
commune rate is present; it is null whenever the commune rate is absent,
including the canton-only case. -/
theorem C8_tax_total (c m : ℚ) :
    tax_total (some c) (some m) = some (pyRound (c + m) 2)
    ∧ tax_total none (some m) = some (pyRound m 2)
    ∧ tax_total (some c) none = none
    ∧ tax_total (none : Option ℚ) (none : Option ℚ) = none :=
  ⟨rfl, rfl, rfl, rfl⟩

/-! ## C9: points with an unknown municipality id -/

theorem normalize_values_length (values : List (Option ℚ)) (invert : Bool) :
    (normalize_values values invert).length = values.length := by
  simp only [normalize_values]
  cases h1 : listMin (values.filterMap id) with
  | none => simp
  | some lo =>
    cases h2 : listMax (values.filterMap id) with
    | none => simp
    | some hi => by_cases h : lo = hi <;> simp [h]

theorem score_loop_spec (w : String → ℚ) (fs : List Feature) :
    ∀ (i : ℕ) (ngs nas sqs ras : List (Option ℚ)),
      ngs.length = fs.length → nas.length = fs.length →
      sqs.length = fs.length → ras.length = fs.length →
      (score_loop w i fs ngs nas sqs ras).length = fs.length
      ∧ (score_loop w i fs ngs nas sqs ras).map (fun p => p.municipality_id)
          = fs.map (fun sf => sf.municipality_id) := by
  induction fs with
  | nil =>
    intro i ngs nas sqs ras h1 h2 h3 h4
    cases ngs with
    | cons a b => simp at h1
    | nil =>
      cases nas with
      | cons a b => simp at h2
      | nil =>
        cases sqs with
        | cons a b => simp at h3
        | nil =>
          cases ras with
          | cons a b => simp at h4
          | nil => exact ⟨rfl, rfl⟩
  | cons sf fs ih =>
    intro i ngs nas sqs ras h1 h2 h3 h4
    cases ngs with
    | nil => simp at h1
    | cons ng ngs =>
      cases nas with
      | nil => simp at h2
      | cons na nas =>
        cases sqs with
        | nil => simp at h3
        | cons sq sqs =>
          cases ras with
          | nil => simp at h4
          | cons ra ras =>
            simp only [List.length_cons, Nat.succ.injEq] at h1 h2 h3 h4
            have hrec := ih (i + 1) ngs nas sqs ras h1 h2 h3 h4
            constructor
            · simp only [score_loop, List.length_cons, hrec.1]
            · simp only [score_loop, List.map_cons, hrec.2]
              rfl

/-- Counterexample to C9 as stated: with an empty municipality catalog
and one settlement referencing the unknown municipality id "999", the
scored output still contains one record carrying that id — the orphaned
point is *not* dropped. -/
theorem C9_orphans_counterexample :
    (compute_scores []
      [{ uuid := "u1", name := "Orphan", municipality_id := some "999",
         municipality_name := none, canton := none, pop_category := none,
         lat := 47, lon := 8 }]
      (fun _ => none) (fun _ => none) (fun _ => none) (fun _ => none)
      (fun _ => none) (fun _ => none)).length = 1
    ∧ (compute_scores []
      [{ uuid := "u1", name := "Orphan", municipality_id := some "999",
         municipality_name := none, canton := none, pop_category := none,
         lat := 47, lon := 8 }]
      (fun _ => none) (fun _ => none) (fun _ => none) (fun _ => none)
      (fun _ => none) (fun _ => none)).map (fun p => p.municipality_id)
      = [some "999"] := by
  constructor
  · rfl
  · rfl

/-- C9 (amended): the scoring stage drops no input point — every
settlement, whether or not its municipality id is in the catalog,
produces exactly one output record, in order, carrying its municipality
id; the run never fails on an orphaned point. -/
theorem C9_no_drop (municipalities : List (String × Muni))
    (settlements : List Settlement)
    (settlement_drive settlement_pt : String → Option (String → Option ℚ))
    (muni_driving muni_pt : String → Option (String → Option ℚ))
    (prices : String → Option PriceData) (taxes : String → Option TaxData) :
    (compute_scores municipalities settlements settlement_drive settlement_pt
        muni_driving muni_pt prices taxes).length = settlements.length
    ∧ (compute_scores municipalities settlements settlement_drive
        settlement_pt muni_driving muni_pt prices taxes).map
        (fun p => p.municipality_id)
      = settlements.map (fun s => s.municipality_id) := by
  have hflen : (build_features municipalities settlements settlement_drive
      settlement_pt muni_driving muni_pt prices taxes).length
      = settlements.length := by
    simp [build_features]
  have h1 : (normalize_values ((build_features municipalities settlements
      settlement_drive settlement_pt muni_driving muni_pt prices
      taxes).map raw_gain_of) false).length
      = (build_features municipalities settlements settlement_drive
        settlement_pt muni_driving muni_pt prices taxes).length := by
    rw [normalize_values_length]
    simp
  have h2 : (normalize_values ((build_features municipalities settlements
      settlement_drive settlement_pt muni_driving muni_pt prices
      taxes).map (fun sf => raw_attractiveness sf.price_data
        (compute_status_quo_access sf.driving sf.pt COMFORT))) false).length
      = (build_features municipalities settlements settlement_drive
        settlement_pt muni_driving muni_pt prices taxes).length := by
    rw [normalize_values_length]
    simp
  have h3 : ((build_features municipalities settlements settlement_drive
      settlement_pt muni_driving muni_pt prices taxes).map
      (fun sf => compute_status_quo_access sf.driving sf.pt COMFORT)).length
      = (build_features municipalities settlements settlement_drive
        settlement_pt muni_driving muni_pt prices taxes).length := by
    simp
  have h4 : ((build_features municipalities settlements settlement_drive
      settlement_pt muni_driving muni_pt prices taxes).map
      (fun sf => raw_attractiveness sf.price_data
        (compute_status_quo_access sf.driving sf.pt COMFORT))).length
      = (build_features municipalities settlements settlement_drive
        settlement_pt muni_driving muni_pt prices taxes).length := by
    simp
  have hs := score_loop_spec SCORING_WEIGHTS
    (build_features municipalities settlements settlement_drive settlement_pt
      muni_driving muni_pt prices taxes) 0 _ _ _ _ h1 h2 h3 h4
  constructor
  · simp only [compute_scores]
    exact hs.1.trans hflen
  · simp only [compute_scores]
    rw [hs.2]
    simp only [build_features, List.map_map]
    rfl

/-! ## C10: truthiness-based serialization of the three raw fields -/

/-- C10: in the emitted record the three fields `gain_per_city` (per
city), `status_quo_access` and `inherent_attractiveness_raw` go through
`round(v, 1) if v else None`: they are null exactly when the computed
value is null *or exactly zero*, and otherwise hold the value rounded to
one decimal. -/
theorem C10_serialization (w : String → ℚ) (i : ℕ) (sf : Feature)
    (ng na sq ra : Option ℚ) :
    ((score_point w i sf ng na sq ra).status_quo_access = roundIfTruthy sq
      ∧ (score_point w i sf ng na sq ra).inherent_attractiveness_raw
          = roundIfTruthy ra
      ∧ (score_point w i sf ng na sq ra).gain_per_city
          = (compute_accessibility_gain sf.driving sf.pt COMFORT).map
              (fun kv => (kv.1, roundIfTruthy kv.2)))
    ∧ ∀ v : Option ℚ,
        (roundIfTruthy v = none ↔ v = none ∨ v = some 0)
        ∧ ∀ x : ℚ, v = some x → x ≠ 0 →
            roundIfTruthy v = some (pyRound x 1) := by
  refine ⟨⟨rfl, rfl, rfl⟩, ?_⟩
  intro v
  constructor
  · cases v with
    | none => simp [roundIfTruthy]
    | some x => by_cases hx : x = 0 <;> simp [roundIfTruthy, hx]
  · intro x hv hx
    subst hv
    simp [roundIfTruthy, hx]

/-- Witness for C10: a computed value of exactly 0 serializes to null
while 25 serializes to `round(25, 1)`. -/
theorem C10_serialization_witness :
    roundIfTruthy (some (0 : ℚ)) = none
    ∧ roundIfTruthy (some (25 : ℚ)) = some (pyRound 25 1) := by
  have h := (C10_serialization SCORING_WEIGHTS 0
    { uuid := "u", settlement_name := "s", pop_category := "",
      municipality_id := none, name := "s", canton := "",
      canton_code := "", lat := 0, lon := 0, driving := fun _ => none,
      pt := fun _ => none, price_data := none, tax_data := none }
    none none none none).2
  exact ⟨(h (some 0)).1.mpr (Or.inr rfl), (h (some 25)).2 25 rfl (by norm_num)⟩
